import Mathlib

/-!
Verification development for the iskidms device-credential management
application. The definitions below are a shallow embedding of the
repository's credential store (`src/unnamed/part_011`, module `db`), the
session layer (`auth`), and the server actions (`src/src/lib/actions.ts`).
Persistent tables become lists of rows; the random id generator (`nanoid`)
and the current clock (`Date.now()`) become explicit parameters; the
external bcrypt library is modelled abstractly by a tagging function.
-/

namespace DMS

/-- User role, `role TEXT CHECK (role IN ('admin','agent'))`. -/
inductive Role where
  | admin
  | agent
deriving DecidableEq

/-- Device status, `status TEXT CHECK (status IN ('pending','active'))`. -/
inductive DeviceStatus where
  | pending
  | active
deriving DecidableEq

/-- Row of the `users` table (core columns used by the operations;
the optional profile columns are validated by the actions but dropped by
`userOperations.create`, which inserts only these four). -/
structure User where
  id : String
  username : String
  passwordHash : String
  role : Role
deriving DecidableEq

/-- Row of the `sessions` table. -/
structure Session where
  id : String
  userId : String
  expiresAt : Nat
deriving DecidableEq

/-- Row of the `devices` table; `agentId` is the nullable owner column. -/
structure Device where
  id : String
  agentId : Option String
  username : String
  password : String
  status : DeviceStatus
deriving DecidableEq

/-- The whole credential store: the three tables the operations touch. -/
structure DB where
  users : List User
  sessions : List Session
  devices : List Device
deriving DecidableEq

/-- Abstract model of the external bcrypt library's `hash(plain, cost)`:
an injective tagging of the plaintext with the cost factor. The code always
hashes with cost 12. -/
def bcryptHash (cost : Nat) (plain : String) : String :=
  "bcrypt$" ++ toString cost ++ "$" ++ plain

/-- Abstract model of `bcrypt.compare(plain, hashed)`: true exactly when
`hashed` is the cost-12 hash of `plain` (the only cost the code produces). -/
def bcryptCompare (plain hashed : String) : Bool :=
  hashed == bcryptHash 12 plain

/-- `userOperations.findByUsername`: `SELECT * FROM users WHERE username = ?`,
first row or null. -/
def userFindByUsername (db : DB) (username : String) : Option User :=
  db.users.find? (fun u => u.username == username)

/-- `userOperations.findById`: `SELECT * FROM users WHERE id = ?`. -/
def userFindById (db : DB) (userId : String) : Option User :=
  db.users.find? (fun u => u.id == userId)

/-- `userOperations.create`: hashes the password with cost 12 and inserts
the row; the fresh `nanoid()` is passed in as `newId`. -/
def userCreate (db : DB) (newId username password : String) (role : Role) : DB :=
  { db with users := db.users ++
      [{ id := newId, username := username,
         passwordHash := bcryptHash 12 password, role := role }] }

/-- `userOperations.verifyPassword(hashedPassword, plainPassword)`. -/
def verifyPassword (hashedPassword plainPassword : String) : Bool :=
  bcryptCompare plainPassword hashedPassword

/-- `userOperations.updatePassword`: `UPDATE users SET passwordHash = ? WHERE id = ?`. -/
def updatePassword (db : DB) (userId newPassword : String) : DB :=
  { db with users := db.users.map (fun u =>
      if u.id = userId then { u with passwordHash := bcryptHash 12 newPassword } else u) }

/-- `userOperations.deleteById`: deletes the user's devices, then the
user's sessions, then the user row itself. -/
def userDeleteById (db : DB) (userId : String) : DB :=
  { db with
      devices := db.devices.filter (fun d => ¬ d.agentId = some userId),
      sessions := db.sessions.filter (fun s => ¬ s.userId = userId),
      users := db.users.filter (fun u => ¬ u.id = userId) }

/-- `userOperations.invalidateUserSessions`: `DELETE FROM sessions WHERE userId = ?`. -/
def invalidateUserSessions (db : DB) (userId : String) : DB :=
  { db with sessions := db.sessions.filter (fun s => ¬ s.userId = userId) }

/-- Default session lifetime, `30 * 24 * 60 * 60 * 1000` milliseconds. -/
def SESSION_TTL : Nat := 30 * 24 * 60 * 60 * 1000

/-- `sessionOperations.create`: inserts a session expiring at `now + ttl`;
the fresh `nanoid()` is passed in as `newId`. Returns the store and the row. -/
def sessionCreate (db : DB) (newId userId : String) (now : Nat) : DB × Session :=
  let s : Session := { id := newId, userId := userId, expiresAt := now + SESSION_TTL }
  ({ db with sessions := db.sessions ++ [s] }, s)

/-- Result row of `sessionOperations.findById`'s join of sessions with users. -/
structure SessionView where
  id : String
  userId : String
  username : String
  role : Role
  expiresAt : Nat
deriving DecidableEq

/-- `sessionOperations.findById`: `SELECT s.*, u.username, u.role FROM sessions s
JOIN users u ON s.userId = u.id WHERE s.id = ? AND s.expiresAt > ?` with the
current time as second parameter; first joined row or null. -/
def sessionFindById (db : DB) (sessionId : String) (now : Nat) : Option SessionView :=
  (db.sessions.filter (fun s => s.id == sessionId && decide (now < s.expiresAt))).findSome?
    (fun s => (db.users.find? (fun u => u.id == s.userId)).map
      (fun u => { id := s.id, userId := s.userId, username := u.username,
                  role := u.role, expiresAt := s.expiresAt }))

/-- `sessionOperations.delete`: `DELETE FROM sessions WHERE id = ?`. -/
def sessionDelete (db : DB) (sessionId : String) : DB :=
  { db with sessions := db.sessions.filter (fun s => ¬ s.id = sessionId) }

/-- `sessionOperations.deleteExpired`: `DELETE FROM sessions WHERE expiresAt <= ?`. -/
def sessionDeleteExpired (db : DB) (now : Nat) : DB :=
  { db with sessions := db.sessions.filter (fun s => ¬ s.expiresAt ≤ now) }

/-- JavaScript truthiness of an optional string argument (`undefined`,
`null` and `""` are falsy). -/
def isTruthy : Option String → Bool
  | none => false
  | some s => s != ""

/-- `deviceOperations.create(agentId, agentNameOrUsername, providedPassword?,
status)`: when an owner is given and no password is provided, the username
gets a random 4-char suffix and the password is random; otherwise the given
name and password are used (falling back to a random password if the given
one is falsy). The `nanoid()` draws are passed in as `newId`, `randSuffix`
and `randPassword`. -/
def deviceCreate (db : DB) (newId : String) (agentId : Option String)
    (agentNameOrUsername : String) (providedPassword : Option String)
    (randSuffix randPassword : String) (status : DeviceStatus) : DB × Device :=
  let generated := isTruthy agentId && !(isTruthy providedPassword)
  let deviceUsername :=
    if generated then agentNameOrUsername ++ "_" ++ randSuffix else agentNameOrUsername
  let devicePassword :=
    if generated then randPassword
    else match providedPassword with
      | some p => if p = "" then randPassword else p
      | none => randPassword
  let d : Device := { id := newId, agentId := agentId, username := deviceUsername,
                      password := devicePassword, status := status }
  ({ db with devices := db.devices ++ [d] }, d)

/-- `deviceOperations.approve`: `UPDATE devices SET status = 'active' WHERE id = ?`. -/
def deviceApprove (db : DB) (deviceId : String) : DB :=
  { db with devices := db.devices.map (fun d =>
      if d.id = deviceId then { d with status := DeviceStatus.active } else d) }

/-- `deviceOperations.delete`: `DELETE FROM devices WHERE id = ?`. -/
def deviceDelete (db : DB) (deviceId : String) : DB :=
  { db with devices := db.devices.filter (fun d => ¬ d.id = deviceId) }

/-- `deviceOperations.findById`: `SELECT * FROM devices WHERE id = ?`. -/
def deviceFindById (db : DB) (deviceId : String) : Option Device :=
  db.devices.find? (fun d => d.id == deviceId)

/-- `deviceOperations.transferOwnership`: `UPDATE devices SET agentId = ? WHERE id = ?`. -/
def deviceTransferOwnership (db : DB) (deviceId newAgentId : String) : DB :=
  { db with devices := db.devices.map (fun d =>
      if d.id = deviceId then { d with agentId := some newAgentId } else d) }

/-- `deviceOperations.removeOwnership`: `UPDATE devices SET agentId = NULL WHERE id = ?`. -/
def deviceRemoveOwnership (db : DB) (deviceId : String) : DB :=
  { db with devices := db.devices.map (fun d =>
      if d.id = deviceId then { d with agentId := none } else d) }

/-- `auth.getSession`: reads the `session_id` cookie (here an explicit
`Option String`) and resolves it through `sessionOperations.findById`. -/
def getSession (db : DB) (cookie : Option String) (now : Nat) : Option SessionView :=
  match cookie with
  | none => none
  | some sid => sessionFindById db sid now

/-- Result of a server action: the `{success: ...}` or `{error: ...}` object. -/
inductive ActionResult where
  | ok (message : String)
  | err (message : String)
deriving DecidableEq

/-- Result of `loginAction`, which on success redirects instead of
returning a success object. -/
inductive LoginResult where
  | err (message : String)
  | redirect (path : String)
deriving DecidableEq

/-- `loginAction`: zod validation (both fields non-empty), user lookup by
username, bcrypt check, session creation and role-based redirect. The fresh
session id and the clock are explicit parameters. -/
def loginAction (db : DB) (username password : String) (newSessionId : String)
    (now : Nat) : LoginResult × DB :=
  if username = "" then (LoginResult.err "Kullanıcı adı gereklidir", db)
  else if password = "" then (LoginResult.err "Şifre gereklidir", db)
  else
    match userFindByUsername db username with
    | none => (LoginResult.err "Invalid username or password", db)
    | some user =>
      if verifyPassword user.passwordHash password then
        let db1 := (sessionCreate db newSessionId user.id now).1
        if user.role = Role.admin then (LoginResult.redirect "/admin", db1)
        else (LoginResult.redirect "/agent", db1)
      else
        (LoginResult.err "Invalid username or password", db)

/-- `registerSchema.safeParse`: first issue message in field order, or none.
The external zod email validator is abstracted as the parameter `emailOk`. -/
def registerValidate (emailOk : String → Bool)
    (username password confirmPassword company_name email phone issuer_person : String) :
    Option String :=
  if username.length < 3 then some "Kullanıcı adı en az 3 karakter olmalıdır"
  else if password.length < 6 then some "Şifre en az 6 karakter olmalıdır"
  else if company_name = "" then some "Firma adı gereklidir"
  else if ¬ emailOk email then some "Invalid email address"
  else if phone = "" then some "Telefon numarası gereklidir"
  else if issuer_person = "" then some "Yetkili kişi gereklidir"
  else if ¬ password = confirmPassword then some "Şifreler eşleşmiyor"
  else none

/-- `registerAction`: validates the form, rejects a taken username, and
creates a role-agent user; it never touches the session table. -/
def registerAction (db : DB) (emailOk : String → Bool)
    (username password confirmPassword company_name email phone issuer_person : String)
    (newUserId : String) : ActionResult × DB :=
  match registerValidate emailOk username password confirmPassword
      company_name email phone issuer_person with
  | some msg => (ActionResult.err msg, db)
  | none =>
    match userFindByUsername db username with
    | some _ => (ActionResult.err "Kullanıcı adı zaten mevcut", db)
    | none =>
      (ActionResult.ok "Hesap başarıyla oluşturuldu. Lütfen giriş yapınız.",
       userCreate db newUserId username password Role.agent)

/-- `approveDeviceAction`: admin gate, then `deviceOperations.approve`. -/
def approveDeviceAction (db : DB) (cookie : Option String) (now : Nat)
    (deviceId : String) : ActionResult × DB :=
  match getSession db cookie now with
  | none => (ActionResult.err "Yetkisiz", db)
  | some session =>
    if ¬ session.role = Role.admin then (ActionResult.err "Yetkisiz", db)
    else (ActionResult.ok "Cihaz hesabı onaylandı", deviceApprove db deviceId)

/-- `deleteAgentAction`: admin gate, self-deletion guard, then
`userOperations.deleteById`. -/
def deleteAgentAction (db : DB) (cookie : Option String) (now : Nat)
    (agentId : String) : ActionResult × DB :=
  match getSession db cookie now with
  | none => (ActionResult.err "Yetkisiz - yönetici erişimi gerekiyor", db)
  | some session =>
    if ¬ session.role = Role.admin then
      (ActionResult.err "Yetkisiz - yönetici erişimi gerekiyor", db)
    else if agentId = session.userId then
      (ActionResult.err "Kendi hesabınızı silemezsiniz", db)
    else
      (ActionResult.ok "Firma silindi", userDeleteById db agentId)

/-- `changeAgentPasswordSchema.safeParse`: first issue message or none. -/
def changeAgentPasswordValidate (agentId newPassword confirmPassword : String) :
    Option String :=
  if agentId = "" then some "Agent ID is required"
  else if newPassword.length < 6 then some "New password must be at least 6 characters"
  else if ¬ newPassword = confirmPassword then some "Şifreler eşleşmiyor"
  else none

/-- `changeAgentPasswordAction`: admin gate, form validation, target
existence check (no role check and no current-password check), password
update, then deletion of all of the target's sessions. -/
def changeAgentPasswordAction (db : DB) (cookie : Option String) (now : Nat)
    (agentId newPassword confirmPassword : String) : ActionResult × DB :=
  match getSession db cookie now with
  | none => (ActionResult.err "Yetkisiz - yönetici erişimi gerekiyor", db)
  | some session =>
    if ¬ session.role = Role.admin then
      (ActionResult.err "Yetkisiz - yönetici erişimi gerekiyor", db)
    else
      match changeAgentPasswordValidate agentId newPassword confirmPassword with
      | some msg => (ActionResult.err msg, db)
      | none =>
        match userFindById db agentId with
        | none => (ActionResult.err "Firma bulunamadı", db)
        | some _ =>
          let db1 := updatePassword db agentId newPassword
          let db2 := invalidateUserSessions db1 agentId
          (ActionResult.ok "Firma şifresi başarıyla değiştirildi. Firma tekrar giriş yapmalıdır.",
           db2)

/-- `transferDeviceOwnershipAction`: admin gate, presence checks for both
form fields, device existence, target-user existence, target-role check,
then `deviceOperations.transferOwnership`. -/
def transferDeviceOwnershipAction (db : DB) (cookie : Option String) (now : Nat)
    (deviceId newAgentId : String) : ActionResult × DB :=
  match getSession db cookie now with
  | none => (ActionResult.err "Yetkisiz - yönetici erişimi gerekiyor", db)
  | some session =>
    if ¬ session.role = Role.admin then
      (ActionResult.err "Yetkisiz - yönetici erişimi gerekiyor", db)
    else if deviceId = "" ∨ newAgentId = "" then
      (ActionResult.err "Cihaz ID ve yeni firma gereklidir", db)
    else
      match deviceFindById db deviceId with
      | none => (ActionResult.err "Cihaz bulunamadı", db)
      | some _ =>
        match userFindById db newAgentId with
        | none => (ActionResult.err "Yeni firma bulunamadı", db)
        | some newAgent =>
          if ¬ newAgent.role = Role.agent then
            (ActionResult.err "Hedef kullanıcı bir firma olmalıdır", db)
          else
            (ActionResult.ok ("Cihaz sahipliği " ++ newAgent.username ++
               " firmaine başarıyla aktarıldı"),
             deviceTransferOwnership db deviceId newAgentId)

/-- JavaScript whitespace as used by `String.prototype.trim` (the ASCII
part, which is all the import paths exercise). -/
def isJsWhitespace (c : Char) : Bool :=
  c = ' ' ∨ c = '\t' ∨ c = '\n' ∨ c = '\r' ∨ c = '\x0b' ∨ c = '\x0c'

/-- JavaScript `String.prototype.trim`: strips leading and trailing
whitespace. -/
def jsTrim (s : String) : String :=
  String.mk (((s.data.dropWhile isJsWhitespace).reverse.dropWhile
    isJsWhitespace).reverse)

/-- Character-list worker for JavaScript `String.prototype.split` with a
one-character separator. -/
def splitOnCharAux (sep : Char) : List Char → List (List Char)
  | [] => [[]]
  | c :: rest =>
    if c = sep then [] :: splitOnCharAux sep rest
    else
      match splitOnCharAux sep rest with
      | [] => [[c]]
      | g :: gs => (c :: g) :: gs

/-- JavaScript `s.split(sep)` for a one-character separator: `"".split`
gives `[""]`, and every separator occurrence opens a new field. -/
def jsSplit (sep : Char) (s : String) : List String :=
  (splitOnCharAux sep s.data).map String.mk

/-- Outcome of one CSV line inside the import loop: skipped blank line,
parsed device, or a validation error with its reason. -/
inductive LineOutcome where
  | blank
  | device (username password : String)
  | bad (reason : String)
deriving DecidableEq

/-- One iteration of the CSV parse loop in `importDevicesFromCSVAction`:
trim the line, skip it if empty, split on commas and trim the fields,
reject a missing or empty field, then apply `csvDeviceSchema` (username at
most 50 chars, password at most 100; zod joins multiple issue messages
with a comma). -/
def classifyLine (raw : String) : LineOutcome :=
  let line := jsTrim raw
  if line = "" then LineOutcome.blank
  else
    match (jsSplit ',' line).map jsTrim with
    | username :: password :: _ =>
      if username = "" ∨ password = "" then
        LineOutcome.bad "Geçersiz format. Beklenen \"username,password\""
      else if 50 < username.length ∧ 100 < password.length then
        LineOutcome.bad "Cihaz hesabı kullanıcı adı çok uzun, Cihaz hesabı şifresi çok uzun"
      else if 50 < username.length then
        LineOutcome.bad "Cihaz hesabı kullanıcı adı çok uzun"
      else if 100 < password.length then
        LineOutcome.bad "Cihaz hesabı şifresi çok uzun"
      else LineOutcome.device username password
    | _ => LineOutcome.bad "Geçersiz format. Beklenen \"username,password\""

/-- The CSV parse loop from index `i` on: accumulates the parsed
`(username, password)` pairs and the `(lineNumber, reason)` errors, where
the line number reported is the 1-based loop index `i + 1`. -/
def csvParseAux (i : Nat) : List String → List (String × String) × List (Nat × String)
  | [] => ([], [])
  | raw :: rest =>
    let acc := csvParseAux (i + 1) rest
    match classifyLine raw with
    | LineOutcome.blank => acc
    | LineOutcome.device u p => ((u, p) :: acc.1, acc.2)
    | LineOutcome.bad r => (acc.1, (i + 1, r) :: acc.2)

/-- The whole CSV parse loop, starting at index 0. -/
def csvParse (lines : List String) : List (String × String) × List (Nat × String) :=
  csvParseAux 0 lines

/-- Rendering of one collected error: `Satır ${i + 1}: ${reason}`. -/
def formatLineError (e : Nat × String) : String :=
  "Satır " ++ toString e.1 ++ ": " ++ e.2

/-- The batched validation-error message returned when any line fails. -/
def formatValidationErrors (errs : List (Nat × String)) : String :=
  "Validation errors:\n" ++ String.intercalate "\n" (errs.map formatLineError)

/-- The device-creation loop of the import: each parsed pair is inserted
as an unowned, already-active device via `deviceOperations.create(null,
username, password, 'active')`; ids come from the generator `ids`. -/
def insertImportedDevices (db : DB) (ids : Nat → String) (k : Nat) :
    List (String × String) → DB
  | [] => db
  | (u, p) :: rest =>
    insertImportedDevices
      (deviceCreate db (ids k) none u (some p) "" "" DeviceStatus.active).1
      ids (k + 1) rest

/-- `importDevicesFromCSVAction`: admin gate, empty-input check, the parse
loop over `csvData.trim().split("\n")`, all-or-nothing validation (any
collected error aborts before any insertion), then the creation loop. -/
def importDevicesFromCSVAction (db : DB) (cookie : Option String) (now : Nat)
    (csvData : String) (ids : Nat → String) : ActionResult × DB :=
  match getSession db cookie now with
  | none => (ActionResult.err "Yetkisiz - yönetici erişimi gerekiyor", db)
  | some session =>
    if ¬ session.role = Role.admin then
      (ActionResult.err "Yetkisiz - yönetici erişimi gerekiyor", db)
    else if jsTrim csvData = "" then
      (ActionResult.err "CSV verisi gereklidir", db)
    else
      let lines := jsSplit '\n' (jsTrim csvData)
      let parsed := csvParse lines
      if ¬ parsed.2 = [] then
        (ActionResult.err (formatValidationErrors parsed.2), db)
      else if parsed.1 = [] then
        (ActionResult.err "CSV verisinde geçerli cihaz bulunamadı", db)
      else
        (ActionResult.ok ("Başarıyla " ++ toString parsed.1.length ++ " cihaz içe aktarıldı"),
         insertImportedDevices db ids 0 parsed.1)

/-- Concrete seeded admin row used for witnesses. -/
def exAdmin : User :=
  { id := "a1", username := "admin", passwordHash := bcryptHash 12 "password123",
    role := Role.admin }

/-- Concrete agent row used for witnesses. -/
def exAgent : User :=
  { id := "b1", username := "bob", passwordHash := bcryptHash 12 "bobpass",
    role := Role.agent }

/-- Concrete pending device owned by the agent, used for witnesses. -/
def exDevice : Device :=
  { id := "d1", agentId := some "b1", username := "bob_x1", password := "pw",
    status := DeviceStatus.pending }

/-- Live session of the admin, used for witnesses (clock fixed at 0). -/
def exSessA : Session := { id := "sa", userId := "a1", expiresAt := 1000 }

/-- Live session of the agent, used for witnesses. -/
def exSessB : Session := { id := "sb", userId := "b1", expiresAt := 1000 }

/-- Concrete store holding the two users, their sessions and one device. -/
def exDb : DB :=
  { users := [exAdmin, exAgent], sessions := [exSessA, exSessB], devices := [exDevice] }

/-- The session view that `getSession exDb (some "sa") 0` resolves to. -/
def exViewA : SessionView :=
  { id := "sa", userId := "a1", username := "admin", role := Role.admin, expiresAt := 1000 }

theorem sessionFindById_none_of_filter_empty (db : DB) (sid : String) (now : Nat)
    (h : ∀ s ∈ db.sessions, ¬ (s.id == sid && decide (now < s.expiresAt)) = true) :
    sessionFindById db sid now = none := by
  unfold sessionFindById
  rw [List.filter_eq_nil_iff.mpr h]
  rfl

theorem getSession_user_exists (db : DB) (cookie : Option String) (now : Nat)
    (sv : SessionView) (h : getSession db cookie now = some sv) :
    ∃ u ∈ db.users, u.id = sv.userId ∧ u.role = sv.role := by
  unfold getSession at h
  cases cookie with
  | none => exact absurd h (by simp)
  | some sid =>
    unfold sessionFindById at h
    obtain ⟨s, hmem, hf⟩ := List.exists_of_findSome?_eq_some h
    obtain ⟨u, hu, hview⟩ := Option.map_eq_some'.mp hf
    refine ⟨u, List.mem_of_find?_eq_some hu, ?_, ?_⟩
    · have := List.find?_some hu
      have hid : u.id = s.userId := by simpa using this
      rw [hid, ← hview]
    · rw [← hview]

theorem getSession_deviceApprove (db : DB) (deviceId : String)
    (cookie : Option String) (now : Nat) :
    getSession (deviceApprove db deviceId) cookie now = getSession db cookie now := rfl

theorem approveDeviceAction_admin_eq (db : DB) (cookie : Option String) (now : Nat)
    (deviceId : String) (sv : SessionView)
    (hs : getSession db cookie now = some sv) (hr : sv.role = Role.admin) :
    approveDeviceAction db cookie now deviceId =
      (ActionResult.ok "Cihaz hesabı onaylandı", deviceApprove db deviceId) := by
  simp [approveDeviceAction, hs, hr]

theorem deviceApprove_status (db : DB) (deviceId : String) :
    ∀ d' ∈ (deviceApprove db deviceId).devices,
      d'.id = deviceId → d'.status = DeviceStatus.active := by
  intro d' hmem hid
  unfold deviceApprove at hmem
  simp only [List.mem_map] at hmem
  obtain ⟨d0, -, heq⟩ := hmem
  subst heq
  by_cases h : d0.id = deviceId
  · simp [h]
  · simp only [if_neg h] at hid
    exact absurd hid h

theorem deviceApprove_preserves_id (db : DB) (deviceId : String) (d : Device)
    (hd : d ∈ db.devices) (hid : d.id = deviceId) :
    ∃ d' ∈ (deviceApprove db deviceId).devices, d'.id = deviceId := by
  refine ⟨{ d with status := DeviceStatus.active }, ?_, hid⟩
  unfold deviceApprove
  simp only [List.mem_map]
  exact ⟨d, hd, by simp [hid]⟩

theorem deleteAgentAction_self_eq (db : DB) (cookie : Option String) (now : Nat)
    (agentId : String) (sv : SessionView)
    (hs : getSession db cookie now = some sv) (hr : sv.role = Role.admin)
    (heq : agentId = sv.userId) :
    deleteAgentAction db cookie now agentId =
      (ActionResult.err "Kendi hesabınızı silemezsiniz", db) := by
  simp [deleteAgentAction, hs, hr, heq]

theorem deleteAgentAction_other_eq (db : DB) (cookie : Option String) (now : Nat)
    (agentId : String) (sv : SessionView)
    (hs : getSession db cookie now = some sv) (hr : sv.role = Role.admin)
    (hne : ¬ agentId = sv.userId) :
    deleteAgentAction db cookie now agentId =
      (ActionResult.ok "Firma silindi", userDeleteById db agentId) := by
  simp [deleteAgentAction, hs, hr, hne]

theorem changeAgentPasswordAction_ok_eq (db : DB) (cookie : Option String) (now : Nat)
    (agentId newPassword confirmPassword : String) (sv : SessionView) (agent : User)
    (hs : getSession db cookie now = some sv) (hr : sv.role = Role.admin)
    (hid : ¬ agentId = "") (hlen : 6 ≤ newPassword.length)
    (hcp : newPassword = confirmPassword)
    (ha : userFindById db agentId = some agent) :
    changeAgentPasswordAction db cookie now agentId newPassword confirmPassword =
      (ActionResult.ok "Firma şifresi başarıyla değiştirildi. Firma tekrar giriş yapmalıdır.",
       invalidateUserSessions (updatePassword db agentId newPassword) agentId) := by
  have hval : changeAgentPasswordValidate agentId newPassword confirmPassword = none := by
    unfold changeAgentPasswordValidate
    rw [if_neg hid, if_neg (by omega), if_neg (by simp [hcp])]
  simp [changeAgentPasswordAction, hs, hr, hval, ha]

theorem csvParseAux_err_mem (ls : List String) : ∀ (i j : Nat) (h : j < ls.length)
    (r : String), classifyLine (ls.get ⟨j, h⟩) = LineOutcome.bad r →
    (i + j + 1, r) ∈ (csvParseAux i ls).2 := by
  induction ls with
  | nil =>
    intro i j h r hc
    exact absurd h (by simp)
  | cons a as ih =>
    intro i j h r hc
    cases j with
    | zero =>
      have hc0 : classifyLine a = LineOutcome.bad r := hc
      unfold csvParseAux
      rw [hc0]
      exact List.mem_cons_self _ _
    | succ j' =>
      have h' : j' < as.length := by simpa using h
      have hm := ih (i + 1) j' h' r hc
      have hidx : i + 1 + j' + 1 = i + (j' + 1) + 1 := by omega
      rw [hidx] at hm
      unfold csvParseAux
      cases hcl : classifyLine a
      · exact hm
      · exact hm
      · exact List.mem_cons_of_mem _ hm

/-- C4: `sessionOperations.findById` returns null when no session row with
the given id exists, and likewise when every row with that id has
`expiresAt ≤ now`: an expired row that still physically exists behaves
identically to a miss. -/
theorem sessionFindById_miss_or_expired (db : DB) (sid : String) (now : Nat) :
    ((∀ s ∈ db.sessions, ¬ s.id = sid) → sessionFindById db sid now = none) ∧
    ((∀ s ∈ db.sessions, s.id = sid → s.expiresAt ≤ now) → sessionFindById db sid now = none) := by
  constructor
  · intro h
    apply sessionFindById_none_of_filter_empty
    intro s hs
    simp [h s hs]
  · intro h
    apply sessionFindById_none_of_filter_empty
    intro s hs
    simp only [Bool.and_eq_true, beq_iff_eq, decide_eq_true_eq, not_and]
    intro hid
    have := h s hs hid
    omega

/-- Witness for C4: at the concrete store, the unknown id "zz" misses, and
the agent's session "sb" (expiring at 1000) is not returned at time 1000. -/
theorem sessionFindById_miss_or_expired_witness :
    sessionFindById exDb "zz" 0 = none ∧ sessionFindById exDb "sb" 1000 = none :=
  ⟨(sessionFindById_miss_or_expired exDb "zz" 0).1 (by decide),
   (sessionFindById_miss_or_expired exDb "sb" 1000).2 (by decide)⟩

/-- C7: `loginAction` answers a wrong password for an existing username and
a nonexistent username (both inputs passing validation) with the identical
error message, leaking no signal about whether the username exists. -/
theorem login_no_enumeration (db : DB) (u1 p1 u2 p2 sid1 sid2 : String)
    (now1 now2 : Nat) (user : User)
    (h1u : ¬ u1 = "") (h1p : ¬ p1 = "") (h2u : ¬ u2 = "") (h2p : ¬ p2 = "")
    (hfound : userFindByUsername db u1 = some user)
    (hwrong : verifyPassword user.passwordHash p1 = false)
    (habsent : userFindByUsername db u2 = none) :
    (loginAction db u1 p1 sid1 now1).1 = LoginResult.err "Invalid username or password" ∧
    (loginAction db u2 p2 sid2 now2).1 = LoginResult.err "Invalid username or password" ∧
    (loginAction db u1 p1 sid1 now1).1 = (loginAction db u2 p2 sid2 now2).1 := by
  refine ⟨?_, ?_, ?_⟩ <;>
    simp [loginAction, h1u, h1p, h2u, h2p, hfound, hwrong, habsent]

/-- Witness for C7: "admin" with a wrong password and the absent username
"ghost" produce the same error on the concrete store. -/
theorem login_no_enumeration_witness :
    (loginAction exDb "admin" "wrong" "ns1" 0).1 = LoginResult.err "Invalid username or password" ∧
    (loginAction exDb "ghost" "pw" "ns2" 0).1 = LoginResult.err "Invalid username or password" ∧
    (loginAction exDb "admin" "wrong" "ns1" 0).1 = (loginAction exDb "ghost" "pw" "ns2" 0).1 :=
  login_no_enumeration exDb "admin" "wrong" "ghost" "pw" "ns1" "ns2" 0 0 exAdmin
    (by decide) (by decide) (by decide) (by decide) (by decide) (by decide) (by decide)

/-- C9: a registration passing validation (username at least 3 characters,
password at least 6, confirmation matching, profile fields accepted,
username free) creates exactly one user with role agent whose stored hash
verifies against the submitted password yet differs from the plaintext,
and leaves the session table untouched (no auto-login). -/
theorem register_creates_agent (db : DB) (emailOk : String → Bool)
    (username password confirmPassword company_name email phone issuer_person
      newUserId : String)
    (h3 : 3 ≤ username.length) (h6 : 6 ≤ password.length)
    (hcp : password = confirmPassword) (hcn : ¬ company_name = "")
    (he : emailOk email = true) (hph : ¬ phone = "") (hip : ¬ issuer_person = "")
    (hfree : userFindByUsername db username = none) :
    (registerAction db emailOk username password confirmPassword company_name
        email phone issuer_person newUserId).1 =
      ActionResult.ok "Hesap başarıyla oluşturuldu. Lütfen giriş yapınız." ∧
    (registerAction db emailOk username password confirmPassword company_name
        email phone issuer_person newUserId).2.users =
      db.users ++ [{ id := newUserId, username := username,
                     passwordHash := bcryptHash 12 password, role := Role.agent }] ∧
    verifyPassword (bcryptHash 12 password) password = true ∧
    ¬ bcryptHash 12 password = password ∧
    (registerAction db emailOk username password confirmPassword company_name
        email phone issuer_person newUserId).2.sessions = db.sessions := by
  have hval : registerValidate emailOk username password confirmPassword
      company_name email phone issuer_person = none := by
    unfold registerValidate
    rw [if_neg (by omega), if_neg (by omega), if_neg hcn, if_neg (by simp [he]),
        if_neg hph, if_neg hip, if_neg (by simp [hcp])]
  have hne : ¬ bcryptHash 12 password = password := by
    intro h
    have := congrArg String.length h
    rw [bcryptHash] at this
    simp [String.length_append] at this
    exact absurd this.1.1 (by decide)
  refine ⟨?_, ?_, ?_, hne, ?_⟩ <;>
    simp [registerAction, hval, hfree, userCreate, verifyPassword, bcryptCompare]

/-- Witness for C9: registering "carol" with password "secret1" on the
concrete store. -/
theorem register_creates_agent_witness :
    (registerAction exDb (fun _ => true) "carol" "secret1" "secret1" "CarolCo"
        "c@x.com" "555" "Carol" "u9").1 =
      ActionResult.ok "Hesap başarıyla oluşturuldu. Lütfen giriş yapınız." ∧
    (registerAction exDb (fun _ => true) "carol" "secret1" "secret1" "CarolCo"
        "c@x.com" "555" "Carol" "u9").2.users =
      exDb.users ++ [{ id := "u9", username := "carol",
                       passwordHash := bcryptHash 12 "secret1", role := Role.agent }] ∧
    verifyPassword (bcryptHash 12 "secret1") "secret1" = true ∧
    ¬ bcryptHash 12 "secret1" = "secret1" ∧
    (registerAction exDb (fun _ => true) "carol" "secret1" "secret1" "CarolCo"
        "c@x.com" "555" "Carol" "u9").2.sessions = exDb.sessions :=
  register_creates_agent exDb (fun _ => true) "carol" "secret1" "secret1" "CarolCo"
    "c@x.com" "555" "Carol" "u9" (by decide) (by decide) (by decide) (by decide)
    (by decide) (by decide) (by decide) (by decide)

/-- C3: with an admin session, approving an existing device succeeds and
leaves it active, and approving it again also succeeds (no error on
double-approve) and leaves it active: approval is success-idempotent. -/
theorem approve_success_idempotent (db : DB) (cookie : Option String) (now : Nat)
    (deviceId : String) (sv : SessionView)
    (hs : getSession db cookie now = some sv) (hr : sv.role = Role.admin)
    (d : Device) (hd : d ∈ db.devices) (hid : d.id = deviceId) :
    (approveDeviceAction db cookie now deviceId).1 =
      ActionResult.ok "Cihaz hesabı onaylandı" ∧
    (∀ d' ∈ (approveDeviceAction db cookie now deviceId).2.devices,
        d'.id = deviceId → d'.status = DeviceStatus.active) ∧
    (approveDeviceAction (approveDeviceAction db cookie now deviceId).2
        cookie now deviceId).1 = ActionResult.ok "Cihaz hesabı onaylandı" ∧
    (∀ d' ∈ (approveDeviceAction (approveDeviceAction db cookie now deviceId).2
        cookie now deviceId).2.devices,
        d'.id = deviceId → d'.status = DeviceStatus.active) ∧
    (∃ d' ∈ (approveDeviceAction (approveDeviceAction db cookie now deviceId).2
        cookie now deviceId).2.devices, d'.id = deviceId) := by
  have h1 := approveDeviceAction_admin_eq db cookie now deviceId sv hs hr
  have hs2 : getSession (deviceApprove db deviceId) cookie now = some sv := by
    rw [getSession_deviceApprove]; exact hs
  have h2 := approveDeviceAction_admin_eq (deviceApprove db deviceId) cookie now
    deviceId sv hs2 hr
  rw [h1]
  dsimp only
  rw [h2]
  dsimp only
  obtain ⟨d1, hd1, hid1⟩ := deviceApprove_preserves_id db deviceId d hd hid
  refine ⟨rfl, deviceApprove_status db deviceId, rfl,
    deviceApprove_status (deviceApprove db deviceId) deviceId, ?_⟩
  exact deviceApprove_preserves_id (deviceApprove db deviceId) deviceId d1 hd1 hid1

/-- Witness for C3: double-approving the concrete pending device "d1" with
the admin's session succeeds both times. -/
theorem approve_success_idempotent_witness :
    (approveDeviceAction exDb (some "sa") 0 "d1").1 =
      ActionResult.ok "Cihaz hesabı onaylandı" ∧
    (approveDeviceAction (approveDeviceAction exDb (some "sa") 0 "d1").2
        (some "sa") 0 "d1").1 = ActionResult.ok "Cihaz hesabı onaylandı" := by
  have h := approve_success_idempotent exDb (some "sa") 0 "d1" exViewA (by decide)
    (by decide) exDevice (by decide) (by decide)
  exact ⟨h.1, h.2.2.1⟩

/-- C8: an admin calling `deleteAgentAction` on the user id bound to their
own session gets the self-protection error with the whole store unchanged
(in particular the calling account still exists); any other target id is
not blocked by this rule and the deletion proceeds. -/
theorem deleteAgent_self_protection (db : DB) (cookie : Option String) (now : Nat)
    (agentId : String) (sv : SessionView)
    (hs : getSession db cookie now = some sv) (hr : sv.role = Role.admin) :
    (agentId = sv.userId →
      deleteAgentAction db cookie now agentId =
        (ActionResult.err "Kendi hesabınızı silemezsiniz", db) ∧
      ∃ u ∈ db.users, u.id = sv.userId) ∧
    (¬ agentId = sv.userId →
      deleteAgentAction db cookie now agentId =
        (ActionResult.ok "Firma silindi", userDeleteById db agentId)) := by
  constructor
  · intro heq
    refine ⟨deleteAgentAction_self_eq db cookie now agentId sv hs hr heq, ?_⟩
    obtain ⟨u, hu, hid, -⟩ := getSession_user_exists db cookie now sv hs
    exact ⟨u, hu, hid⟩
  · intro hne
    exact deleteAgentAction_other_eq db cookie now agentId sv hs hr hne

/-- Witness for C8: on the concrete store the admin cannot delete "a1"
(their own account) but can delete the agent "b1". -/
theorem deleteAgent_self_protection_witness :
    deleteAgentAction exDb (some "sa") 0 "a1" =
      (ActionResult.err "Kendi hesabınızı silemezsiniz", exDb) ∧
    deleteAgentAction exDb (some "sa") 0 "b1" =
      (ActionResult.ok "Firma silindi", userDeleteById exDb "b1") :=
  ⟨((deleteAgent_self_protection exDb (some "sa") 0 "a1" exViewA (by decide)
      (by decide)).1 (by decide)).1,
   (deleteAgent_self_protection exDb (some "sa") 0 "b1" exViewA (by decide)
      (by decide)).2 (by decide)⟩

/-- C1 counterexample: deleting the agent "b1" (by the admin "a1", a
different account) does not keep the agent's device with owner null — it
deletes the device outright, the device table ending empty
(`userOperations.deleteById` runs `DELETE FROM devices WHERE agentId = ?`). -/
theorem deleteAgent_nulls_ownership_cex :
    exDevice ∈ exDb.devices ∧ exDevice.agentId = some "b1" ∧
    (deleteAgentAction exDb (some "sa") 0 "b1").1 = ActionResult.ok "Firma silindi" ∧
    (deleteAgentAction exDb (some "sa") 0 "b1").2.devices = [] := by
  decide

/-- C1 amended: deleting a user through `deleteAgentAction` removes all of
that user's sessions and deletes every device owned by that user (rather
than keeping them with owner null); devices owned by anyone else survive
unchanged, and the user row itself is removed. -/
theorem deleteAgent_cascade_amended (db : DB) (cookie : Option String) (now : Nat)
    (agentId : String) (sv : SessionView)
    (hs : getSession db cookie now = some sv) (hr : sv.role = Role.admin)
    (hne : ¬ agentId = sv.userId) :
    (deleteAgentAction db cookie now agentId).1 = ActionResult.ok "Firma silindi" ∧
    (∀ s ∈ (deleteAgentAction db cookie now agentId).2.sessions, ¬ s.userId = agentId) ∧
    (∀ d ∈ (deleteAgentAction db cookie now agentId).2.devices, ¬ d.agentId = some agentId) ∧
    (∀ d ∈ db.devices, ¬ d.agentId = some agentId →
      d ∈ (deleteAgentAction db cookie now agentId).2.devices) ∧
    (∀ u ∈ (deleteAgentAction db cookie now agentId).2.users, ¬ u.id = agentId) := by
  rw [deleteAgentAction_other_eq db cookie now agentId sv hs hr hne]
  dsimp only
  refine ⟨rfl, ?_, ?_, ?_, ?_⟩
  · intro s hmem
    have := (List.mem_filter.mp hmem).2
    simpa using this
  · intro d hmem
    have := (List.mem_filter.mp hmem).2
    simpa using this
  · intro d hmem hown
    exact List.mem_filter.mpr ⟨hmem, by simpa using hown⟩
  · intro u hmem
    have := (List.mem_filter.mp hmem).2
    simpa using this

/-- Witness for C1's amended statement: deleting "b1" on the concrete
store succeeds. -/
theorem deleteAgent_cascade_amended_witness :
    (deleteAgentAction exDb (some "sa") 0 "b1").1 = ActionResult.ok "Firma silindi" :=
  (deleteAgent_cascade_amended exDb (some "sa") 0 "b1" exViewA (by decide) (by decide)
    (by decide)).1

/-- C5: for an admin session and an existing device,
`transferDeviceOwnershipAction` rejects a nonexistent target user and a
target whose role is admin, leaving the whole store (owner and status
included) unchanged; a transfer to an agent succeeds and rewrites only the
device's owner field, all other fields (status included) and tables kept. -/
theorem transferOwnership_validates_target (db : DB) (cookie : Option String)
    (now : Nat) (deviceId newAgentId : String) (sv : SessionView) (device : Device)
    (hs : getSession db cookie now = some sv) (hr : sv.role = Role.admin)
    (hd : deviceFindById db deviceId = some device) :
    (userFindById db newAgentId = none →
      (∃ m, (transferDeviceOwnershipAction db cookie now deviceId newAgentId).1 =
        ActionResult.err m) ∧
      (transferDeviceOwnershipAction db cookie now deviceId newAgentId).2 = db) ∧
    (∀ u, userFindById db newAgentId = some u → u.role = Role.admin →
      (∃ m, (transferDeviceOwnershipAction db cookie now deviceId newAgentId).1 =
        ActionResult.err m) ∧
      (transferDeviceOwnershipAction db cookie now deviceId newAgentId).2 = db) ∧
    (∀ u, userFindById db newAgentId = some u → u.role = Role.agent →
      ¬ deviceId = "" → ¬ newAgentId = "" →
      (transferDeviceOwnershipAction db cookie now deviceId newAgentId).1 =
        ActionResult.ok ("Cihaz sahipliği " ++ u.username ++ " firmaine başarıyla aktarıldı") ∧
      (transferDeviceOwnershipAction db cookie now deviceId newAgentId).2.users = db.users ∧
      (transferDeviceOwnershipAction db cookie now deviceId newAgentId).2.sessions =
        db.sessions ∧
      (∀ d ∈ db.devices, ¬ d.id = deviceId →
        d ∈ (transferDeviceOwnershipAction db cookie now deviceId newAgentId).2.devices) ∧
      (∀ d ∈ db.devices, d.id = deviceId →
        { d with agentId := some newAgentId } ∈
          (transferDeviceOwnershipAction db cookie now deviceId newAgentId).2.devices)) := by
  refine ⟨?_, ?_, ?_⟩
  · intro hnone
    by_cases hempty : deviceId = "" ∨ newAgentId = ""
    · exact ⟨⟨"Cihaz ID ve yeni firma gereklidir",
        by simp [transferDeviceOwnershipAction, hs, hr, hempty]⟩,
        by simp [transferDeviceOwnershipAction, hs, hr, hempty]⟩
    · exact ⟨⟨"Yeni firma bulunamadı",
        by simp [transferDeviceOwnershipAction, hs, hr, hempty, hd, hnone]⟩,
        by simp [transferDeviceOwnershipAction, hs, hr, hempty, hd, hnone]⟩
  · intro u hu hrole
    by_cases hempty : deviceId = "" ∨ newAgentId = ""
    · exact ⟨⟨"Cihaz ID ve yeni firma gereklidir",
        by simp [transferDeviceOwnershipAction, hs, hr, hempty]⟩,
        by simp [transferDeviceOwnershipAction, hs, hr, hempty]⟩
    · have hnotagent : ¬ u.role = Role.agent := by rw [hrole]; intro h; cases h
      exact ⟨⟨"Hedef kullanıcı bir firma olmalıdır",
        by simp [transferDeviceOwnershipAction, hs, hr, hempty, hd, hu, hnotagent]⟩,
        by simp [transferDeviceOwnershipAction, hs, hr, hempty, hd, hu, hnotagent]⟩
  · intro u hu hrole hdne hane
    have hempty : ¬ (deviceId = "" ∨ newAgentId = "") := by simp [hdne, hane]
    have heq : transferDeviceOwnershipAction db cookie now deviceId newAgentId =
        (ActionResult.ok ("Cihaz sahipliği " ++ u.username ++ " firmaine başarıyla aktarıldı"),
         deviceTransferOwnership db deviceId newAgentId) := by
      simp [transferDeviceOwnershipAction, hs, hr, hempty, hd, hu, hrole]
    rw [heq]
    dsimp only
    refine ⟨rfl, rfl, rfl, ?_, ?_⟩
    · intro d hmem hne
      unfold deviceTransferOwnership
      simp only [List.mem_map]
      exact ⟨d, hmem, by simp [hne]⟩
    · intro d hmem hide
      unfold deviceTransferOwnership
      simp only [List.mem_map]
      exact ⟨d, hmem, by simp [hide]⟩

/-- Witness for C5 on the concrete store: transferring "d1" to the unknown
id "zz" and to the admin "a1" both leave the store unchanged, while
transferring to the agent "b1" succeeds. -/
theorem transferOwnership_validates_target_witness :
    (transferDeviceOwnershipAction exDb (some "sa") 0 "d1" "zz").2 = exDb ∧
    (transferDeviceOwnershipAction exDb (some "sa") 0 "d1" "a1").2 = exDb ∧
    (transferDeviceOwnershipAction exDb (some "sa") 0 "d1" "b1").1 =
      ActionResult.ok ("Cihaz sahipliği " ++ "bob" ++ " firmaine başarıyla aktarıldı") := by
  have h1 := transferOwnership_validates_target exDb (some "sa") 0 "d1" "zz" exViewA
    exDevice (by decide) (by decide) (by decide)
  have h2 := transferOwnership_validates_target exDb (some "sa") 0 "d1" "a1" exViewA
    exDevice (by decide) (by decide) (by decide)
  have h3 := transferOwnership_validates_target exDb (some "sa") 0 "d1" "b1" exViewA
    exDevice (by decide) (by decide) (by decide)
  exact ⟨(h1.1 (by decide)).2,
         (h2.2.1 exAdmin (by decide) (by decide)).2,
         (h3.2.2 exAgent (by decide) (by decide) (by decide) (by decide)).1⟩

/-- C6: a successful `changeAgentPasswordAction` (admin session, valid
form, existing target — with no hypothesis about the target's current
password, which the action never checks) deletes every session of the
target, so any token that in the pre-state belonged only to the target
afterwards resolves to no session at any time. -/
theorem changeAgentPassword_invalidates_sessions (db : DB) (cookie : Option String)
    (now : Nat) (agentId newPassword confirmPassword : String)
    (sv : SessionView) (agent : User)
    (hs : getSession db cookie now = some sv) (hr : sv.role = Role.admin)
    (hid : ¬ agentId = "") (hlen : 6 ≤ newPassword.length)
    (hcp : newPassword = confirmPassword)
    (ha : userFindById db agentId = some agent) :
    (changeAgentPasswordAction db cookie now agentId newPassword confirmPassword).1 =
      ActionResult.ok "Firma şifresi başarıyla değiştirildi. Firma tekrar giriş yapmalıdır." ∧
    (∀ s ∈ (changeAgentPasswordAction db cookie now agentId newPassword
        confirmPassword).2.sessions, ¬ s.userId = agentId) ∧
    (∀ oldToken : String, (∀ s ∈ db.sessions, s.id = oldToken → s.userId = agentId) →
      ∀ t : Nat, sessionFindById (changeAgentPasswordAction db cookie now agentId
        newPassword confirmPassword).2 oldToken t = none) := by
  rw [changeAgentPasswordAction_ok_eq db cookie now agentId newPassword confirmPassword
    sv agent hs hr hid hlen hcp ha]
  dsimp only
  have hsess : ∀ s ∈ (invalidateUserSessions (updatePassword db agentId newPassword)
      agentId).sessions, ¬ s.userId = agentId := by
    intro s hmem
    have := (List.mem_filter.mp hmem).2
    simpa using this
  refine ⟨rfl, hsess, ?_⟩
  intro oldToken howner t
  apply sessionFindById_none_of_filter_empty
  intro s hmem
  have hnotid : ¬ s.id = oldToken := by
    intro hid0
    have hsin : s ∈ db.sessions := (List.mem_filter.mp hmem).1
    exact hsess s hmem (howner s hsin hid0)
  simp [hnotid]

/-- Witness for C6: forcing a new password for the agent "b1" succeeds and
the agent's old token "sb" no longer resolves. -/
theorem changeAgentPassword_invalidates_sessions_witness :
    (changeAgentPasswordAction exDb (some "sa") 0 "b1" "newpass1" "newpass1").1 =
      ActionResult.ok "Firma şifresi başarıyla değiştirildi. Firma tekrar giriş yapmalıdır." ∧
    sessionFindById (changeAgentPasswordAction exDb (some "sa") 0 "b1" "newpass1"
      "newpass1").2 "sb" 0 = none := by
  have h := changeAgentPassword_invalidates_sessions exDb (some "sa") 0 "b1" "newpass1"
    "newpass1" exViewA exAgent (by decide) (by decide) (by decide) (by decide)
    (by decide) (by decide)
  exact ⟨h.1, h.2.2 "sb" (by decide) 0⟩

/-- C10: `changeAgentPasswordAction` never checks the target's role: for
any existing user id — admin targets and the calling admin's own id
included — it succeeds, rewrites that user's stored hash to the hash of
the new password, and deletes all of that user's sessions. -/
theorem changeAgentPassword_no_role_check (db : DB) (cookie : Option String)
    (now : Nat) (agentId newPassword confirmPassword : String)
    (sv : SessionView) (user : User)
    (hs : getSession db cookie now = some sv) (hr : sv.role = Role.admin)
    (hid : ¬ agentId = "") (hlen : 6 ≤ newPassword.length)
    (hcp : newPassword = confirmPassword)
    (hu : userFindById db agentId = some user) :
    (changeAgentPasswordAction db cookie now agentId newPassword confirmPassword).1 =
      ActionResult.ok "Firma şifresi başarıyla değiştirildi. Firma tekrar giriş yapmalıdır." ∧
    (∀ u ∈ (changeAgentPasswordAction db cookie now agentId newPassword
        confirmPassword).2.users, u.id = agentId →
      u.passwordHash = bcryptHash 12 newPassword) ∧
    (∀ u ∈ db.users, ¬ u.id = agentId →
      u ∈ (changeAgentPasswordAction db cookie now agentId newPassword
        confirmPassword).2.users) ∧
    (∀ s ∈ (changeAgentPasswordAction db cookie now agentId newPassword
        confirmPassword).2.sessions, ¬ s.userId = agentId) := by
  rw [changeAgentPasswordAction_ok_eq db cookie now agentId newPassword confirmPassword
    sv user hs hr hid hlen hcp hu]
  dsimp only
  refine ⟨rfl, ?_, ?_, ?_⟩
  · intro u hmem hida
    unfold invalidateUserSessions updatePassword at hmem
    simp only [List.mem_map] at hmem
    obtain ⟨u0, -, heq⟩ := hmem
    subst heq
    by_cases h0 : u0.id = agentId
    · simp [h0]
    · simp only [if_neg h0] at hida
      exact absurd hida h0
  · intro u hmem hne
    unfold invalidateUserSessions updatePassword
    simp only [List.mem_map]
    exact ⟨u, hmem, by simp [hne]⟩
  · intro s hmem
    have := (List.mem_filter.mp hmem).2
    simpa using this

/-- Witness for C10: the calling admin forcing a new password on the admin
account "a1" — their own, role admin — still succeeds. -/
theorem changeAgentPassword_no_role_check_witness :
    (changeAgentPasswordAction exDb (some "sa") 0 "a1" "newpass1" "newpass1").1 =
      ActionResult.ok "Firma şifresi başarıyla değiştirildi. Firma tekrar giriş yapmalıdır." :=
  (changeAgentPassword_no_role_check exDb (some "sa") 0 "a1" "newpass1" "newpass1"
    exViewA exAdmin (by decide) (by decide) (by decide) (by decide) (by decide)
    (by decide)).1

/-- C2: with an admin session, a CSV import in which some non-blank line
fails validation returns the batched validation-error result, whose
collected list carries an entry `(k + 1, reason)` for every failing
0-based line index `k` (the 1-based line number with its reason), and
leaves the store unchanged: zero devices are created, even for the lines
that passed validation. -/
theorem importCSV_all_or_nothing (db : DB) (cookie : Option String) (now : Nat)
    (csvData : String) (ids : Nat → String) (sv : SessionView)
    (hs : getSession db cookie now = some sv) (hr : sv.role = Role.admin)
    (j : Nat) (hj : j < (jsSplit '\n' (jsTrim csvData)).length) (r : String)
    (hbad : classifyLine ((jsSplit '\n' (jsTrim csvData)).get ⟨j, hj⟩) =
      LineOutcome.bad r) :
    (importDevicesFromCSVAction db cookie now csvData ids).1 =
      ActionResult.err
        (formatValidationErrors (csvParse (jsSplit '\n' (jsTrim csvData))).2) ∧
    (∀ (k : Nat) (hk : k < (jsSplit '\n' (jsTrim csvData)).length) (reason : String),
      classifyLine ((jsSplit '\n' (jsTrim csvData)).get ⟨k, hk⟩) =
        LineOutcome.bad reason →
      (k + 1, reason) ∈ (csvParse (jsSplit '\n' (jsTrim csvData))).2) ∧
    (importDevicesFromCSVAction db cookie now csvData ids).2 = db := by
  have hmem := csvParseAux_err_mem (jsSplit '\n' (jsTrim csvData)) 0 j hj r hbad
  have htrim : ¬ jsTrim csvData = "" := by
    intro h0
    have hnil : (csvParseAux 0 (jsSplit '\n' "")).2 = [] := rfl
    rw [h0, hnil] at hmem
    exact absurd hmem (List.not_mem_nil _)
  have hne : ¬ (csvParse (jsSplit '\n' (jsTrim csvData))).2 = [] := by
    intro h0
    rw [csvParse] at h0
    rw [h0] at hmem
    exact absurd hmem (List.not_mem_nil _)
  refine ⟨?_, ?_, ?_⟩
  · simp [importDevicesFromCSVAction, hs, hr, htrim, hne]
  · intro k hk reason hbadk
    have := csvParseAux_err_mem (jsSplit '\n' (jsTrim csvData)) 0 k hk reason hbadk
    simpa using this
  · simp [importDevicesFromCSVAction, hs, hr, htrim, hne]

/-- Witness for C2: importing "a,b\nc," (line 2 missing its password) with
the admin's session reports the batched validation error and creates
nothing. -/
theorem importCSV_all_or_nothing_witness :
    (importDevicesFromCSVAction exDb (some "sa") 0 "a,b\nc," (fun k => toString k)).1 =
      ActionResult.err
        (formatValidationErrors (csvParse (jsSplit '\n' (jsTrim "a,b\nc,"))).2) ∧
    (importDevicesFromCSVAction exDb (some "sa") 0 "a,b\nc," (fun k => toString k)).2 =
      exDb := by
  have h := importCSV_all_or_nothing exDb (some "sa") 0 "a,b\nc," (fun k => toString k)
    exViewA (by decide) (by decide) 1 (by decide)
    "Geçersiz format. Beklenen \"username,password\"" (by decide)
  exact ⟨h.1, h.2.2⟩

end DMS
